import Mathlib

/-!
Shallow embedding of the calibration / transform-resolution / dispatch core of
`octomap_world/src/octomap_manager.cc` (class `volumetric_mapping::OctomapManager`).

Real-valued quantities (`double` in the source) are modelled as rationals.
ROS timestamps are modelled as naturals, with `0` standing for `ros::Time(0)`
("latest known").  External collaborators (the stereo reprojection routine
`getQForROSCameras`, the tf listener, the mapping engine) are modelled as
parameters or as trace events, since their internals are outside this source
file: the theorems below are about the control flow of `octomap_manager.cc`
itself.
-/

namespace VolumetricMapping

/-- A 4x4 real matrix, the stereo reprojection matrix `Q_` (Eigen::Matrix4d). -/
abbrev Mat4 := Fin 4 → Fin 4 → ℚ

/-- The identity matrix, `Eigen::Matrix4d::Identity()`. -/
def mat4Identity : Mat4 := fun i j => if i = j then 1 else 0

/-- Row-major flattening of a 4x4 matrix, matching the layout of
`Eigen::Map<Eigen::Matrix<double, 4, 4, Eigen::RowMajor>>` over a flat
16-element buffer. -/
def rowMajorFlatten (Q : Mat4) : List ℚ :=
  [Q 0 0, Q 0 1, Q 0 2, Q 0 3,
   Q 1 0, Q 1 1, Q 1 2, Q 1 3,
   Q 2 0, Q 2 1, Q 2 2, Q 2 3,
   Q 3 0, Q 3 1, Q 3 2, Q 3 3]

/-- A `sensor_msgs::CameraInfo` message: width and height are consumed by
`calculateQ`; the remaining intrinsic fields are opaque to this file (they are
only handed on to the external `getQForROSCameras`). -/
structure CameraInfo where
  width : ℕ
  height : ℕ
  intrinsics : List ℚ
  deriving DecidableEq, Repr

/-- A rigid transform as produced by the tf lookup (opaque payload: the
manager never inspects it, only forwards it). -/
structure Transformation where
  data : List ℚ
  deriving DecidableEq, Repr

/-- The members of `OctomapManager` that the calibration state machine and the
dispatch callbacks touch: `world_frame_`, `Q_initialized_`, `Q_`,
`full_image_size_`, `left_info_`, `right_info_`. -/
structure ManagerState where
  world_frame : String
  Q_initialized : Bool
  Q : Mat4
  full_image_size : ℕ × ℕ
  left_info : Option CameraInfo
  right_info : Option CameraInfo

/-- The member initializers of the `OctomapManager` constructor:
`world_frame_("world"), Q_initialized_(false), Q_(Identity), full_image_size_(752, 480)`;
no camera info has been received yet. -/
def initialState : ManagerState :=
  { world_frame := "world"
    Q_initialized := false
    Q := mat4Identity
    full_image_size := (752, 480)
    left_info := none
    right_info := none }

/-- Model of `OctomapManager::setQFromParams`: fails (returning `false`, logging an
invalid-size error) when the coefficient vector does not have exactly 16
entries, leaving `Q_` untouched; otherwise maps the vector row-major onto the
4x4 matrix and returns `true`.  The function itself never writes
`Q_initialized_` — that is done by its caller. -/
def setQFromParams (Q_vec : List ℚ) (Q : Mat4) : Bool × Mat4 :=
  if Q_vec.length ≠ 16 then
    (false, Q)
  else
    (true, fun i j => Q_vec.getD (4 * i.val + j.val) 0)

/-- The `Q` fragment of `OctomapManager::setParametersFromROS`
(lines 53–57): if the parameter server supplies a `Q` vector, run
`setQFromParams` and store its success flag into `Q_initialized_`;
otherwise leave the state alone. -/
def tryInitQFromRosParams (s : ManagerState) (qParam : Option (List ℚ)) :
    ManagerState :=
  match qParam with
  | none => s
  | some v =>
      let r := setQFromParams v s.Q
      { s with Q := r.2, Q_initialized := r.1 }

/-- Model of `OctomapManager::calculateQ`, with the external stereo reprojection
routine `getQForROSCameras` passed in as a parameter: recompute `Q_` from the
two stored camera infos, set `full_image_size_` from the left camera's width
and height, and latch `Q_initialized_`.  The source dereferences `left_info_`
and `right_info_` unconditionally; both callers guard on both being present,
so the missing case (modelled as a no-op) is unreachable from the callbacks. -/
def calculateQ (getQForROSCameras : CameraInfo → CameraInfo → Mat4)
    (s : ManagerState) : ManagerState :=
  match s.left_info, s.right_info with
  | some l, some r =>
      { s with
        Q := getQForROSCameras l r
        full_image_size := (l.width, l.height)
        Q_initialized := true }
  | _, _ => s

/-- Model of `OctomapManager::leftCameraInfoCallback`: store the arriving descriptor
into `left_info_`, then, if both infos are present and `Q_initialized_` is
still false, derive `Q_` via `calculateQ`. -/
def leftCameraInfoCallback (getQForROSCameras : CameraInfo → CameraInfo → Mat4)
    (s : ManagerState) (info : CameraInfo) : ManagerState :=
  let s' := { s with left_info := some info }
  if s'.left_info.isSome && s'.right_info.isSome && !s'.Q_initialized then
    calculateQ getQForROSCameras s'
  else
    s'

/-- Model of `OctomapManager::rightCameraInfoCallback`: symmetric to the left
callback, storing into `right_info_`. -/
def rightCameraInfoCallback (getQForROSCameras : CameraInfo → CameraInfo → Mat4)
    (s : ManagerState) (info : CameraInfo) : ManagerState :=
  let s' := { s with right_info := some info }
  if s'.left_info.isSome && s'.right_info.isSome && !s'.Q_initialized then
    calculateQ getQForROSCameras s'
  else
    s'

/-- The log signals the manager's callbacks can emit:
`noCameraInfo` is the rate-limited `ROS_WARN_THROTTLE` "No camera info
available yet, skipping adding disparity."; `usingLatestTf` is the `ROS_WARN`
"Using latest TF transform instead of timestamp match."; `tfError` is the
`ROS_ERROR_STREAM` in the catch block of `lookupTransform`, carrying the
exception's cause text. -/
inductive Warning where
  | noCameraInfo : Warning
  | usingLatestTf : Warning
  | tfError : String → Warning
  deriving DecidableEq, Repr

/-- The external tf listener (`tf::TransformListener`), as the two queries
the manager makes of it: `canTransform to_frame from_frame time` and
`lookupTransform to_frame from_frame time`, the latter either yielding a
stamped transform or throwing a `tf::TransformException` with a message. -/
structure TfProvider where
  canTransform : String → String → ℕ → Bool
  lookupTf : String → String → ℕ → Except String Transformation

/-- The outcome of one call to `OctomapManager::lookupTransform`: the
transform written through the out-parameter on success (`none` when the
function returns `false`), the cause text of the caught exception if any, the
warnings logged, and the list of timestamps at which `tf_listener_.lookupTransform`
was actually invoked (to account for lookup attempts). -/
structure LookupOutcome where
  transform : Option Transformation
  errorText : Option String
  warnings : List Warning
  queriedTimes : List ℕ
  deriving DecidableEq, Repr

/-- Model of `OctomapManager::lookupTransform` (lines 237–265): start from the
requested timestamp; if `canTransform` fails at that exact time, substitute
`ros::Time(0)` (latest) and log a warning; then perform a single
`lookupTransform` call at the (possibly substituted) time, returning `false`
with an error log carrying the exception text if it throws, and the converted
transform otherwise. -/
def lookupTransform (tf_listener : TfProvider) (from_frame to_frame : String)
    (timestamp : ℕ) : LookupOutcome :=
  let available := tf_listener.canTransform to_frame from_frame timestamp
  let time_to_lookup := if available then timestamp else 0
  let fallbackWarnings : List Warning :=
    if available then [] else [Warning.usingLatestTf]
  match tf_listener.lookupTf to_frame from_frame time_to_lookup with
  | Except.ok tf =>
      { transform := some tf
        errorText := none
        warnings := fallbackWarnings
        queriedTimes := [time_to_lookup] }
  | Except.error ex =>
      { transform := none
        errorText := some ex
        warnings := fallbackWarnings ++ [Warning.tfError ex]
        queriedTimes := [time_to_lookup] }

/-- A `stereo_msgs::DisparityImage` as the dispatcher sees it: the header's
frame id and stamp, plus an opaque payload forwarded unmodified. -/
structure DisparityImage where
  frame_id : String
  stamp : ℕ
  payload : List ℚ
  deriving DecidableEq, Repr

/-- A `sensor_msgs::PointCloud2` as the dispatcher sees it. -/
structure Pointcloud where
  frame_id : String
  stamp : ℕ
  payload : List ℚ
  deriving DecidableEq, Repr

/-- A three-component vector (`Eigen::Vector3d`). -/
structure Vec3 where
  x : ℚ
  y : ℚ
  z : ℚ
  deriving DecidableEq, Repr

/-- A call into the external mapping engine (`OctomapWorld` base class):
`insertDisparityImage(transform, disparity, Q, full_image_size)`,
`insertPointcloud(transform, pointcloud)`, `setOccupied(center, size)` and
`setFree(center, size)`. -/
inductive EngineCall where
  | insertDisparityImage : Transformation → DisparityImage → Mat4 → ℕ × ℕ → EngineCall
  | insertPointcloud : Transformation → Pointcloud → EngineCall
  | setOccupied : Vec3 → Vec3 → EngineCall
  | setFree : Vec3 → Vec3 → EngineCall

/-- Model of `OctomapManager::insertDisparityImageWithTf` (lines 211–225): if
`Q_initialized_` is false, log the throttled warning and return without
touching the mapping engine; otherwise resolve the sensor-to-world transform
and, only on success, call `insertDisparityImage(transform, disparity, Q_,
full_image_size_)`.  The result is the list of mapping-engine calls made and
the warnings logged; the manager state itself is not mutated. -/
def insertDisparityImageWithTf (tf_listener : TfProvider) (s : ManagerState)
    (disparity : DisparityImage) : List EngineCall × List Warning :=
  if !s.Q_initialized then
    ([], [Warning.noCameraInfo])
  else
    let lo := lookupTransform tf_listener disparity.frame_id s.world_frame
        disparity.stamp
    match lo.transform with
    | some sensor_to_world =>
        ([EngineCall.insertDisparityImage sensor_to_world disparity s.Q
            s.full_image_size], lo.warnings)
    | none => ([], lo.warnings)

/-- Model of `OctomapManager::insertPointcloudWithTf` (lines 227–235): resolve the
sensor-to-world transform and, on success, call
`insertPointcloud(transform, pointcloud)`; there is no calibration gate. -/
def insertPointcloudWithTf (tf_listener : TfProvider) (s : ManagerState)
    (pointcloud : Pointcloud) : List EngineCall × List Warning :=
  let lo := lookupTransform tf_listener pointcloud.frame_id s.world_frame
      pointcloud.stamp
  match lo.transform with
  | some sensor_to_world =>
      ([EngineCall.insertPointcloud sensor_to_world pointcloud], lo.warnings)
  | none => ([], lo.warnings)

/-- The mapping-engine calls made by a sequence of disparity-frame arrivals
(the dispatcher mutates no manager state, so frames are processed
independently against the same state). -/
def processDisparityFrames (tf_listener : TfProvider) (s : ManagerState)
    (frames : List DisparityImage) : List EngineCall :=
  (frames.map (fun d => (insertDisparityImageWithTf tf_listener s d).1)).flatten

/-- A `volumetric_msgs::SetBoxOccupancy::Request`. -/
structure SetBoxOccupancyRequest where
  box_center : Vec3
  box_size : Vec3
  set_occupied : Bool
  deriving DecidableEq, Repr

/-- Model of `OctomapManager::setBoxOccupancyCallback` (lines 172–187): convert the
request's center and size, call `setOccupied` or `setFree` according to the
flag, and then fall off the end of the `bool`-returning function body.  The
second component models the value produced by an executed `return` statement:
`none` means control reached the closing brace with no `return` executed, so
the `bool` handed back to the service framework is unspecified. -/
def setBoxOccupancyCallback (request : SetBoxOccupancyRequest) :
    List EngineCall × Option Bool :=
  let bounding_box_center := request.box_center
  let bounding_box_size := request.box_size
  let set_occupied := request.set_occupied
  (if set_occupied then
     [EngineCall.setOccupied bounding_box_center bounding_box_size]
   else
     [EngineCall.setFree bounding_box_center bounding_box_size],
   none)

/-- Model of `OctomapManager::resetMapCallback` (lines 142–146), for contrast with the
box-occupancy callback: it executes `return true`. -/
def resetMapCallback : List EngineCall × Option Bool :=
  ([], some true)

/-- The callbacks that can be registered as service handlers. -/
inductive ServiceCallback where
  | resetMap : ServiceCallback
  | publishAll : ServiceCallback
  | getOctomap : ServiceCallback
  | saveOctomap : ServiceCallback
  | loadOctomap : ServiceCallback
  | setBoxOccupancy : ServiceCallback
  deriving DecidableEq, Repr

/-- A `ros::ServiceServer` handle as returned by `advertiseService`: it is
identified by the advertised service name and the bound callback. -/
structure ServiceHandle where
  name : String
  callback : ServiceCallback
  deriving DecidableEq, Repr

/-- The service-handle members of `OctomapManager` that
`advertiseServices` assigns to: `reset_map_service_`, `publish_all_service_`,
`get_map_service_`, `save_octree_service_`, `load_octree_service_`.  These
are the only service-server members the source file ever writes. -/
structure ManagerServices where
  reset_map_service : Option ServiceHandle
  publish_all_service : Option ServiceHandle
  get_map_service : Option ServiceHandle
  save_octree_service : Option ServiceHandle
  load_octree_service : Option ServiceHandle
  deriving DecidableEq, Repr

/-- Model of `OctomapManager::advertiseServices` (lines 90–103), assignment for
assignment: note that both the `load_map` advertisement and the
`set_box_occupancy` advertisement store into `load_octree_service_`. -/
def advertiseServices (s : ManagerServices) : ManagerServices :=
  let s1 := { s with reset_map_service := some ⟨"reset_map", ServiceCallback.resetMap⟩ }
  let s2 := { s1 with publish_all_service := some ⟨"publish_all", ServiceCallback.publishAll⟩ }
  let s3 := { s2 with get_map_service := some ⟨"get_map", ServiceCallback.getOctomap⟩ }
  let s4 := { s3 with save_octree_service := some ⟨"save_map", ServiceCallback.saveOctomap⟩ }
  let s5 := { s4 with load_octree_service := some ⟨"load_map", ServiceCallback.loadOctomap⟩ }
  { s5 with load_octree_service := some ⟨"set_box_occupancy", ServiceCallback.setBoxOccupancy⟩ }

/-! Concrete sample data used by the witness theorems. -/

/-- A concrete stand-in for the external stereo reprojection routine. -/
def sampleGetQ : CameraInfo → CameraInfo → Mat4 :=
  fun l _ => fun _ _ => (l.width : ℚ)

/-- A concrete left camera descriptor. -/
def leftInfoSample : CameraInfo := ⟨640, 480, [500, 320, 240]⟩

/-- A concrete right camera descriptor. -/
def rightInfoSample : CameraInfo := ⟨640, 480, [500, 320, 240, 3/25]⟩

/-- The manager state after calibration has latched. -/
def readyState : ManagerState := { initialState with Q_initialized := true }

/-- A manager state that has seen only the right camera descriptor. -/
def pendingRightState : ManagerState :=
  { initialState with right_info := some rightInfoSample }

/-- A concrete transform payload. -/
def tfSample : Transformation := ⟨[1, 0, 0, 2]⟩

/-- A provider that answers every query at every timestamp. -/
def providerAlways : TfProvider :=
  { canTransform := fun _ _ _ => true
    lookupTf := fun _ _ _ => Except.ok tfSample }

/-- A provider that only has the latest transform (time `0`). -/
def providerLatestOnly : TfProvider :=
  { canTransform := fun _ _ t => t == 0
    lookupTf := fun _ _ t =>
      if t == 0 then Except.ok tfSample else Except.error "no entry at timestamp" }

/-- A provider with no transform at all between any two frames. -/
def providerEmpty : TfProvider :=
  { canTransform := fun _ _ _ => false
    lookupTf := fun _ _ _ => Except.error "frames never connected" }

/-- A concrete disparity frame. -/
def dispSample : DisparityImage := ⟨"cam", 5, [7, 9]⟩

/-- A concrete point cloud frame. -/
def cloudSample : Pointcloud := ⟨"lidar", 8, [1, 2, 3]⟩

/-- A concrete 16-entry coefficient vector. -/
def qVecSample : List ℚ :=
  [1, 0, 0, -320, 0, 1, 0, -240, 0, 0, 0, 500, 0, 0, 8, 0]

/-- A service-handle record with nothing advertised yet. -/
def emptyServices : ManagerServices := ⟨none, none, none, none, none⟩

/-- Unflattening helper lemma: mapping a 16-element vector row-major onto a
4x4 matrix and flattening it back row-major returns the vector. -/
theorem rowMajorFlatten_getD_eq (v : List ℚ) (h : v.length = 16) :
    rowMajorFlatten (fun i j => v.getD (4 * i.val + j.val) 0) = v := by
  obtain ⟨a0, v, rfl⟩ := List.exists_of_length_succ v h
  simp only [List.length_cons, Nat.succ_inj] at h
  obtain ⟨a1, v, rfl⟩ := List.exists_of_length_succ v h
  simp only [List.length_cons, Nat.succ_inj] at h
  obtain ⟨a2, v, rfl⟩ := List.exists_of_length_succ v h
  simp only [List.length_cons, Nat.succ_inj] at h
  obtain ⟨a3, v, rfl⟩ := List.exists_of_length_succ v h
  simp only [List.length_cons, Nat.succ_inj] at h
  obtain ⟨a4, v, rfl⟩ := List.exists_of_length_succ v h
  simp only [List.length_cons, Nat.succ_inj] at h
  obtain ⟨a5, v, rfl⟩ := List.exists_of_length_succ v h
  simp only [List.length_cons, Nat.succ_inj] at h
  obtain ⟨a6, v, rfl⟩ := List.exists_of_length_succ v h
  simp only [List.length_cons, Nat.succ_inj] at h
  obtain ⟨a7, v, rfl⟩ := List.exists_of_length_succ v h
  simp only [List.length_cons, Nat.succ_inj] at h
  obtain ⟨a8, v, rfl⟩ := List.exists_of_length_succ v h
  simp only [List.length_cons, Nat.succ_inj] at h
  obtain ⟨a9, v, rfl⟩ := List.exists_of_length_succ v h
  simp only [List.length_cons, Nat.succ_inj] at h
  obtain ⟨a10, v, rfl⟩ := List.exists_of_length_succ v h
  simp only [List.length_cons, Nat.succ_inj] at h
  obtain ⟨a11, v, rfl⟩ := List.exists_of_length_succ v h
  simp only [List.length_cons, Nat.succ_inj] at h
  obtain ⟨a12, v, rfl⟩ := List.exists_of_length_succ v h
  simp only [List.length_cons, Nat.succ_inj] at h
  obtain ⟨a13, v, rfl⟩ := List.exists_of_length_succ v h
  simp only [List.length_cons, Nat.succ_inj] at h
  obtain ⟨a14, v, rfl⟩ := List.exists_of_length_succ v h
  simp only [List.length_cons, Nat.succ_inj] at h
  obtain ⟨a15, v, rfl⟩ := List.exists_of_length_succ v h
  simp only [List.length_cons, Nat.succ_inj] at h
  rw [List.length_eq_zero] at h
  subst h
  rfl

/-- C1: once `Q_initialized_` is true (set by either the explicit-coefficient
path or the derived path), a left or right camera-info arrival only stores
the descriptor as last-seen: the matrix `Q_`, the readiness flag, and
`full_image_size_` are all unchanged, and no recomputation runs. -/
theorem calibration_ready_is_latched (getQ : CameraInfo → CameraInfo → Mat4)
    (s : ManagerState) (linfo rinfo : CameraInfo)
    (h : s.Q_initialized = true) :
    leftCameraInfoCallback getQ s linfo = { s with left_info := some linfo } ∧
    rightCameraInfoCallback getQ s rinfo = { s with right_info := some rinfo } := by
  refine ⟨?_, ?_⟩ <;>
    simp [leftCameraInfoCallback, rightCameraInfoCallback, h]

/-- Witness for C1 at a concrete Ready state. -/
theorem calibration_ready_is_latched_witness :
    readyState.Q_initialized = true ∧
    (leftCameraInfoCallback sampleGetQ readyState leftInfoSample =
        { readyState with left_info := some leftInfoSample } ∧
     rightCameraInfoCallback sampleGetQ readyState rightInfoSample =
        { readyState with right_info := some rightInfoSample }) :=
  ⟨rfl, calibration_ready_is_latched sampleGetQ readyState leftInfoSample
      rightInfoSample rfl⟩

/-- C2: `lookupTransform` checks availability at the exact requested
timestamp; exactly when that check fails it substitutes time `0` (latest
known) and logs the degraded-accuracy warning; it then performs exactly one
lookup call, at the possibly substituted time, whose answer is the result —
no retries and no further fallback. -/
theorem lookupTransform_fallback_policy (p : TfProvider)
    (from_frame to_frame : String) (ts : ℕ) :
    (lookupTransform p from_frame to_frame ts).queriedTimes =
        [if p.canTransform to_frame from_frame ts then ts else 0] ∧
    (lookupTransform p from_frame to_frame ts).queriedTimes.length = 1 ∧
    (Warning.usingLatestTf ∈ (lookupTransform p from_frame to_frame ts).warnings ↔
        p.canTransform to_frame from_frame ts = false) ∧
    (lookupTransform p from_frame to_frame ts).transform =
        (p.lookupTf to_frame from_frame
          (if p.canTransform to_frame from_frame ts then ts else 0)).toOption := by
  cases hc : p.canTransform to_frame from_frame ts
  · cases hl : p.lookupTf to_frame from_frame 0 <;>
      simp [lookupTransform, hc, hl, Except.toOption]
  · cases hl : p.lookupTf to_frame from_frame ts <;>
      simp [lookupTransform, hc, hl, Except.toOption]

/-- C4: with a coefficient vector of length exactly 16, `setQFromParams`
succeeds, the stored matrix's row-major flattening is the input vector
element for element, and the startup caller latches `Q_initialized_`
immediately. -/
theorem explicit_calibration_success (s : ManagerState) (v : List ℚ)
    (h : v.length = 16) :
    (setQFromParams v s.Q).1 = true ∧
    rowMajorFlatten (setQFromParams v s.Q).2 = v ∧
    (tryInitQFromRosParams s (some v)).Q_initialized = true ∧
    rowMajorFlatten (tryInitQFromRosParams s (some v)).Q = v := by
  have h16 : ¬ v.length ≠ 16 := by omega
  have hQ : setQFromParams v s.Q =
      (true, fun i j => v.getD (4 * i.val + j.val) 0) := by
    unfold setQFromParams
    rw [if_neg h16]
  have hflag : (tryInitQFromRosParams s (some v)).Q_initialized =
      (setQFromParams v s.Q).1 := rfl
  have hmat : (tryInitQFromRosParams s (some v)).Q =
      (setQFromParams v s.Q).2 := rfl
  refine ⟨by rw [hQ], ?_, ?_, ?_⟩
  · rw [hQ]
    exact rowMajorFlatten_getD_eq v h
  · rw [hflag, hQ]
  · rw [hmat, hQ]
    exact rowMajorFlatten_getD_eq v h

/-- Witness for C4 on a concrete 16-entry vector. -/
theorem explicit_calibration_success_witness :
    qVecSample.length = 16 ∧
    ((setQFromParams qVecSample initialState.Q).1 = true ∧
     rowMajorFlatten (setQFromParams qVecSample initialState.Q).2 = qVecSample ∧
     (tryInitQFromRosParams initialState (some qVecSample)).Q_initialized = true ∧
     rowMajorFlatten (tryInitQFromRosParams initialState (some qVecSample)).Q =
        qVecSample) :=
  ⟨rfl, explicit_calibration_success initialState qVecSample rfl⟩

/-- C5: with a coefficient vector whose length is not 16, `setQFromParams`
reports failure and leaves the matrix untouched (it never writes the
readiness flag at all), and the startup caller, starting from the
constructor's not-initialized state, leaves the whole state unchanged. -/
theorem explicit_calibration_invalid_size (s : ManagerState) (v : List ℚ)
    (h : v.length ≠ 16) :
    setQFromParams v s.Q = (false, s.Q) ∧
    (s.Q_initialized = false → tryInitQFromRosParams s (some v) = s) := by
  constructor
  · simp [setQFromParams, h]
  · intro h0
    obtain ⟨wf, qi, Q, fis, li, ri⟩ := s
    simp_all [tryInitQFromRosParams, setQFromParams]

/-- Witness for C5 on a concrete 5-entry vector. -/
theorem explicit_calibration_invalid_size_witness :
    ([1, 2, 3, 4, 5] : List ℚ).length ≠ 16 ∧
    setQFromParams [1, 2, 3, 4, 5] initialState.Q = (false, initialState.Q) ∧
    initialState.Q_initialized = false ∧
    tryInitQFromRosParams initialState (some [1, 2, 3, 4, 5]) = initialState :=
  ⟨by decide,
   (explicit_calibration_invalid_size initialState [1, 2, 3, 4, 5] (by decide)).1,
   rfl,
   (explicit_calibration_invalid_size initialState [1, 2, 3, 4, 5] (by decide)).2 rfl⟩

/-- C3: a disparity frame arriving while `Q_initialized_` is false is dropped
with the throttled warning and no mapping-engine call; while true, the
transform is resolved and on success the engine is called with exactly
`(transform, frame, Q_, full_image_size_)`, while on lookup failure the frame
is dropped with no engine call. -/
theorem disparity_dispatch_gating (p : TfProvider) (s : ManagerState)
    (d : DisparityImage) :
    (s.Q_initialized = false →
      insertDisparityImageWithTf p s d = ([], [Warning.noCameraInfo])) ∧
    (s.Q_initialized = true →
      (∀ tf, (lookupTransform p d.frame_id s.world_frame d.stamp).transform =
          some tf →
        insertDisparityImageWithTf p s d =
          ([EngineCall.insertDisparityImage tf d s.Q s.full_image_size],
            (lookupTransform p d.frame_id s.world_frame d.stamp).warnings)) ∧
      ((lookupTransform p d.frame_id s.world_frame d.stamp).transform = none →
        insertDisparityImageWithTf p s d =
          ([], (lookupTransform p d.frame_id s.world_frame d.stamp).warnings))) := by
  refine ⟨fun h0 => ?_, fun h1 => ⟨fun tf htf => ?_, fun hn => ?_⟩⟩
  · simp [insertDisparityImageWithTf, h0]
  · simp [insertDisparityImageWithTf, h1, htf]
  · simp [insertDisparityImageWithTf, h1, hn]

/-- Witness for C3: a not-ready drop and a ready dispatch on concrete data. -/
theorem disparity_dispatch_gating_witness :
    initialState.Q_initialized = false ∧
    insertDisparityImageWithTf providerAlways initialState dispSample =
      ([], [Warning.noCameraInfo]) ∧
    readyState.Q_initialized = true ∧
    (lookupTransform providerAlways dispSample.frame_id readyState.world_frame
        dispSample.stamp).transform = some tfSample ∧
    insertDisparityImageWithTf providerAlways readyState dispSample =
      ([EngineCall.insertDisparityImage tfSample dispSample readyState.Q
          readyState.full_image_size],
        (lookupTransform providerAlways dispSample.frame_id readyState.world_frame
          dispSample.stamp).warnings) :=
  ⟨rfl,
   (disparity_dispatch_gating providerAlways initialState dispSample).1 rfl,
   rfl,
   rfl,
   ((disparity_dispatch_gating providerAlways readyState dispSample).2 rfl).1
     tfSample rfl⟩

/-- C6: after a camera-info arrival, if both sides are now stored and
`Q_initialized_` is still false, the derived matrix is computed from the
pair, readiness latches, and `full_image_size_` becomes the left camera's
width and height; if the other side is missing or readiness already holds,
only the descriptor is stored and no computation runs. -/
theorem derived_calibration_on_second_descriptor
    (getQ : CameraInfo → CameraInfo → Mat4) (s : ManagerState)
    (info : CameraInfo) :
    (∀ r, s.Q_initialized = false → s.right_info = some r →
      leftCameraInfoCallback getQ s info =
        { s with left_info := some info, Q := getQ info r,
                 full_image_size := (info.width, info.height),
                 Q_initialized := true }) ∧
    (s.right_info = none →
      leftCameraInfoCallback getQ s info = { s with left_info := some info }) ∧
    (s.Q_initialized = true →
      leftCameraInfoCallback getQ s info = { s with left_info := some info }) ∧
    (∀ l, s.Q_initialized = false → s.left_info = some l →
      rightCameraInfoCallback getQ s info =
        { s with right_info := some info, Q := getQ l info,
                 full_image_size := (l.width, l.height),
                 Q_initialized := true }) ∧
    (s.left_info = none →
      rightCameraInfoCallback getQ s info = { s with right_info := some info }) ∧
    (s.Q_initialized = true →
      rightCameraInfoCallback getQ s info = { s with right_info := some info }) := by
  obtain ⟨wf, qi, Q, fis, li, ri⟩ := s
  refine ⟨fun r h0 hr => ?_, fun hr => ?_, fun h1 => ?_,
          fun l h0 hl => ?_, fun hl => ?_, fun h1 => ?_⟩ <;>
    simp_all [leftCameraInfoCallback, rightCameraInfoCallback, calculateQ]

/-- Witness for C6: derivation on a concrete pending state and a no-op on a
state that is still missing the right descriptor. -/
theorem derived_calibration_on_second_descriptor_witness :
    pendingRightState.Q_initialized = false ∧
    pendingRightState.right_info = some rightInfoSample ∧
    leftCameraInfoCallback sampleGetQ pendingRightState leftInfoSample =
      { pendingRightState with
          left_info := some leftInfoSample,
          Q := sampleGetQ leftInfoSample rightInfoSample,
          full_image_size := (leftInfoSample.width, leftInfoSample.height),
          Q_initialized := true } ∧
    initialState.right_info = none ∧
    leftCameraInfoCallback sampleGetQ initialState leftInfoSample =
      { initialState with left_info := some leftInfoSample } :=
  ⟨rfl, rfl,
   (derived_calibration_on_second_descriptor sampleGetQ pendingRightState
      leftInfoSample).1 rightInfoSample rfl rfl,
   rfl,
   (derived_calibration_on_second_descriptor sampleGetQ initialState
      leftInfoSample).2.1 rfl⟩

/-- C7: when the single (possibly fallback-substituted) lookup throws, the
resolver reports failure carrying the cause text and yields no transform;
both dispatchers then make no mapping-engine call for that frame, and a
failing frame at the head of a sequence leaves the processing of the
remaining frames untouched. -/
theorem transform_lookup_failure_is_per_frame (p : TfProvider)
    (s : ManagerState) (d : DisparityImage) (pc : Pointcloud) (e ePc : String)
    (hd : p.lookupTf s.world_frame d.frame_id
        (if p.canTransform s.world_frame d.frame_id d.stamp then d.stamp else 0) =
        Except.error e)
    (hpc : p.lookupTf s.world_frame pc.frame_id
        (if p.canTransform s.world_frame pc.frame_id pc.stamp then pc.stamp else 0) =
        Except.error ePc) :
    (lookupTransform p d.frame_id s.world_frame d.stamp).transform = none ∧
    (lookupTransform p d.frame_id s.world_frame d.stamp).errorText = some e ∧
    (insertDisparityImageWithTf p s d).1 = [] ∧
    (insertPointcloudWithTf p s pc).1 = [] ∧
    (∀ rest : List DisparityImage,
      processDisparityFrames p s (d :: rest) = processDisparityFrames p s rest) := by
  have key : ∀ (ff : String) (ts : ℕ) (ee : String),
      p.lookupTf s.world_frame ff
        (if p.canTransform s.world_frame ff ts then ts else 0) =
        Except.error ee →
      (lookupTransform p ff s.world_frame ts).transform = none ∧
      (lookupTransform p ff s.world_frame ts).errorText = some ee := by
    intro ff ts ee hh
    cases hc : p.canTransform s.world_frame ff ts <;>
      rw [hc] at hh <;> simp at hh <;> simp [lookupTransform, hc, hh]
  obtain ⟨hdt, hde⟩ := key d.frame_id d.stamp e hd
  obtain ⟨hpt, _⟩ := key pc.frame_id pc.stamp ePc hpc
  have hdrop : (insertDisparityImageWithTf p s d).1 = [] := by
    cases h1 : s.Q_initialized
    · simp [insertDisparityImageWithTf, h1]
    · simp [insertDisparityImageWithTf, h1, hdt]
  refine ⟨hdt, hde, hdrop, ?_, ?_⟩
  · simp [insertPointcloudWithTf, hpt]
  · intro rest
    simp [processDisparityFrames, hdrop]

/-- Witness for C7 on a provider with no transforms at all. -/
theorem transform_lookup_failure_is_per_frame_witness :
    providerEmpty.lookupTf readyState.world_frame dispSample.frame_id
        (if providerEmpty.canTransform readyState.world_frame dispSample.frame_id
            dispSample.stamp then dispSample.stamp else 0) =
        Except.error "frames never connected" ∧
    providerEmpty.lookupTf readyState.world_frame cloudSample.frame_id
        (if providerEmpty.canTransform readyState.world_frame cloudSample.frame_id
            cloudSample.stamp then cloudSample.stamp else 0) =
        Except.error "frames never connected" ∧
    (lookupTransform providerEmpty dispSample.frame_id readyState.world_frame
        dispSample.stamp).transform = none ∧
    (lookupTransform providerEmpty dispSample.frame_id readyState.world_frame
        dispSample.stamp).errorText = some "frames never connected" ∧
    (insertDisparityImageWithTf providerEmpty readyState dispSample).1 = [] ∧
    (insertPointcloudWithTf providerEmpty readyState cloudSample).1 = [] :=
  ⟨rfl, rfl,
   (transform_lookup_failure_is_per_frame providerEmpty readyState dispSample
      cloudSample "frames never connected" "frames never connected" rfl rfl).1,
   (transform_lookup_failure_is_per_frame providerEmpty readyState dispSample
      cloudSample "frames never connected" "frames never connected" rfl rfl).2.1,
   (transform_lookup_failure_is_per_frame providerEmpty readyState dispSample
      cloudSample "frames never connected" "frames never connected" rfl rfl).2.2.1,
   (transform_lookup_failure_is_per_frame providerEmpty readyState dispSample
      cloudSample "frames never connected" "frames never connected" rfl rfl).2.2.2.1⟩

/-- C8: point-cloud dispatch never consults `Q_initialized_` — its outcome is
the same whatever that flag is — and the frame is forwarded as exactly
`(transform, frame)` when lookup succeeds, dropped only when it fails. -/
theorem pointcloud_dispatch_ignores_readiness (p : TfProvider)
    (s : ManagerState) (b : Bool) (pc : Pointcloud) :
    insertPointcloudWithTf p { s with Q_initialized := b } pc =
      insertPointcloudWithTf p s pc ∧
    (∀ tf, (lookupTransform p pc.frame_id s.world_frame pc.stamp).transform =
        some tf →
      insertPointcloudWithTf p s pc =
        ([EngineCall.insertPointcloud tf pc],
          (lookupTransform p pc.frame_id s.world_frame pc.stamp).warnings)) ∧
    ((lookupTransform p pc.frame_id s.world_frame pc.stamp).transform = none →
      insertPointcloudWithTf p s pc =
        ([], (lookupTransform p pc.frame_id s.world_frame pc.stamp).warnings)) := by
  refine ⟨rfl, fun tf htf => ?_, fun hn => ?_⟩
  · simp [insertPointcloudWithTf, htf]
  · simp [insertPointcloudWithTf, hn]

/-- Witness for C8 with the readiness flag concretely flipped off. -/
theorem pointcloud_dispatch_ignores_readiness_witness :
    insertPointcloudWithTf providerAlways
        { readyState with Q_initialized := false } cloudSample =
      insertPointcloudWithTf providerAlways readyState cloudSample ∧
    (lookupTransform providerAlways cloudSample.frame_id readyState.world_frame
        cloudSample.stamp).transform = some tfSample ∧
    insertPointcloudWithTf providerAlways readyState cloudSample =
      ([EngineCall.insertPointcloud tfSample cloudSample],
        (lookupTransform providerAlways cloudSample.frame_id
          readyState.world_frame cloudSample.stamp).warnings) :=
  ⟨(pointcloud_dispatch_ignores_readiness providerAlways readyState false
      cloudSample).1,
   rfl,
   (pointcloud_dispatch_ignores_readiness providerAlways readyState false
      cloudSample).2.1 tfSample rfl⟩

/-- C9: the set-box-occupancy service callback performs the occupancy
operation selected by the request flag and then produces no return value at
all — the `bool` handed back to the service framework is unspecified for
every request. -/
theorem set_box_occupancy_returns_no_value (request : SetBoxOccupancyRequest) :
    (setBoxOccupancyCallback request).2 = none ∧
    (setBoxOccupancyCallback request).1 =
      (if request.set_occupied then
        [EngineCall.setOccupied request.box_center request.box_size]
      else
        [EngineCall.setFree request.box_center request.box_size]) :=
  ⟨rfl, rfl⟩

/-- C10: after `advertiseServices`, the member `load_octree_service_` holds
the `set_box_occupancy` handle (the second assignment to that member), and no
service-handle member written by the source retains a handle bound to the
load-map callback. -/
theorem advertise_services_clobbers_load_map (s : ManagerServices) :
    (advertiseServices s).load_octree_service =
      some ⟨"set_box_occupancy", ServiceCallback.setBoxOccupancy⟩ ∧
    (advertiseServices s).reset_map_service =
      some ⟨"reset_map", ServiceCallback.resetMap⟩ ∧
    (advertiseServices s).publish_all_service =
      some ⟨"publish_all", ServiceCallback.publishAll⟩ ∧
    (advertiseServices s).get_map_service =
      some ⟨"get_map", ServiceCallback.getOctomap⟩ ∧
    (advertiseServices s).save_octree_service =
      some ⟨"save_map", ServiceCallback.saveOctomap⟩ ∧
    (∀ h : ServiceHandle, h.callback = ServiceCallback.loadOctomap →
      (advertiseServices s).reset_map_service ≠ some h ∧
      (advertiseServices s).publish_all_service ≠ some h ∧
      (advertiseServices s).get_map_service ≠ some h ∧
      (advertiseServices s).save_octree_service ≠ some h ∧
      (advertiseServices s).load_octree_service ≠ some h) := by
  refine ⟨rfl, rfl, rfl, rfl, rfl, ?_⟩
  intro h hcb
  obtain ⟨nm, cb⟩ := h
  simp only at hcb
  subst hcb
  refine ⟨?_, ?_, ?_, ?_, ?_⟩ <;> simp [advertiseServices]

/-- Witness for C10 at the concrete load-map handle. -/
theorem advertise_services_clobbers_load_map_witness :
    (⟨"load_map", ServiceCallback.loadOctomap⟩ : ServiceHandle).callback =
      ServiceCallback.loadOctomap ∧
    ((advertiseServices emptyServices).reset_map_service ≠
        some ⟨"load_map", ServiceCallback.loadOctomap⟩ ∧
     (advertiseServices emptyServices).publish_all_service ≠
        some ⟨"load_map", ServiceCallback.loadOctomap⟩ ∧
     (advertiseServices emptyServices).get_map_service ≠
        some ⟨"load_map", ServiceCallback.loadOctomap⟩ ∧
     (advertiseServices emptyServices).save_octree_service ≠
        some ⟨"load_map", ServiceCallback.loadOctomap⟩ ∧
     (advertiseServices emptyServices).load_octree_service ≠
        some ⟨"load_map", ServiceCallback.loadOctomap⟩) :=
  ⟨rfl, (advertise_services_clobbers_load_map emptyServices).2.2.2.2.2
      ⟨"load_map", ServiceCallback.loadOctomap⟩ rfl⟩

end VolumetricMapping
